import Mathlib

/-!
Verification development for the `edit_prediction_context` crate: a shallow
embedding of the declaration model (`declaration.rs`) and the declaration
scoring pipeline (`declaration_scoring.rs`, plus the superseded variant in
`scored_declaration.rs`), with theorems settling the specification claims.

Buffer text is modelled as a `List Char`, one character per byte (offsets are
list indices). Points (row, column) are modelled through explicit
offset/row conversion functions mirroring the rope's `to_point` / `to_offset`
operations. `f32` score arithmetic is modelled exactly over `ℚ`.
-/

namespace EditPredictionContext

/-! ## Text model: offsets, rows, line starts -/

/-- Row of a byte offset: the number of newline characters strictly before
`o`, clamped at the end of the text (mirrors `offset.to_point(buffer).row`). -/
def offsetToRow : List Char → Nat → Nat
  | _, 0 => 0
  | [], _ + 1 => 0
  | c :: rest, o + 1 => (if c = '\n' then 1 else 0) + offsetToRow rest o

/-- Byte offset of the start of line `row`, clamped to the end of the text
(mirrors `Point::new(row, 0).to_offset(buffer)` with end-of-text clipping). -/
def lineStartOffset : List Char → Nat → Nat
  | _, 0 => 0
  | [], _ + 1 => 0
  | c :: rest, r + 1 =>
      if c = '\n' then 1 + lineStartOffset rest r
      else 1 + lineStartOffset rest (r + 1)

/-- `buffer.text_for_range(range)` on a half-open byte range. -/
def textForRange (text : List Char) (r : Nat × Nat) : List Char :=
  (text.drop r.1).take (r.2 - r.1)

/-! ## Data model from `declaration.rs` -/

/-- `Identifier` from `declaration.rs`: interned name plus language id. -/
structure Identifier where
  name : String
  language_id : Nat
deriving DecidableEq

/-- Model of an open buffer entity: its `remote_id` and current text.
Scoring reads buffers only through these two operations. -/
structure BufferModel where
  id : Nat
  text : List Char
deriving DecidableEq

/-- Modelled from the spec: `outline.rs` is not under `src/`. The spec's
outline extraction adapter produces descriptors of the shape
`{identifier, item byte range, signature byte range, parent index}`, which is
exactly what `FileDeclaration::from_outline` consumes. -/
structure OutlineDeclaration where
  identifier : Identifier
  item_range : Nat × Nat
  signature_range : Nat × Nat
  parent : Option Nat
deriving DecidableEq

/-- `ITEM_TEXT_TRUNCATION_LENGTH` from `declaration.rs`. -/
def ITEM_TEXT_TRUNCATION_LENGTH : Nat := 1024

/-- The start of a range expanded to line boundaries: column 0 of its first
line (`point_range.start.column = 0` followed by `to_offset`). -/
def expandStart (text : List Char) (range : Nat × Nat) : Nat :=
  lineStartOffset text (offsetToRow text range.1)

/-- The end of a range expanded to line boundaries: column 0 of the row after
its last row (`point_range.end.row += 1; point_range.end.column = 0`). -/
def expandStop (text : List Char) (range : Nat × Nat) : Nat :=
  lineStartOffset text (offsetToRow text range.2 + 1)

/-- `expand_range_to_line_boundaries_and_truncate` from `declaration.rs`:
expand to line boundaries, flag and truncate when the expanded range exceeds
`limit` bytes, and clip the end to the text (`clip_offset(.., Bias::Left)`;
with one-byte characters, clipping is clamping to the text length). -/
def expand_range_to_line_boundaries_and_truncate
    (range : Nat × Nat) (limit : Nat) (text : List Char) : (Nat × Nat) × Bool :=
  ((expandStart text range,
      min (if expandStop text range - expandStart text range > limit
           then expandStart text range + limit
           else expandStop text range)
        text.length),
    decide (expandStop text range - expandStart text range > limit))

/-- `FileDeclaration` from `declaration.rs`. -/
structure FileDeclaration where
  parent : Option Nat
  identifier : Identifier
  /-- offset range of the declaration in the file, expanded and truncated -/
  item_range_in_file : Nat × Nat
  /-- text of `item_range_in_file` -/
  text : List Char
  /-- whether `text` was truncated -/
  text_is_truncated : Bool
  /-- offset range of the signature within `text` -/
  signature_range_in_text : Nat × Nat
  /-- whether the signature was truncated -/
  signature_is_truncated : Bool
deriving DecidableEq

/-- `FileDeclaration::from_outline` from `declaration.rs`. `saturating_sub`
is `Nat` subtraction. -/
def FileDeclaration.from_outline
    (declaration : OutlineDeclaration) (snapshot : List Char) : FileDeclaration :=
  let expanded := expand_range_to_line_boundaries_and_truncate
    declaration.item_range ITEM_TEXT_TRUNCATION_LENGTH snapshot
  let item_range_in_file := expanded.1
  let text_is_truncated := expanded.2
  let signature_start := declaration.signature_range.1 - item_range_in_file.1
  let signature_end0 := declaration.signature_range.2 - item_range_in_file.1
  let item_len := item_range_in_file.2 - item_range_in_file.1
  let signature_is_truncated : Bool := signature_end0 > item_len
  let signature_end := if signature_is_truncated then item_len else signature_end0
  { parent := none
    identifier := declaration.identifier
    item_range_in_file := item_range_in_file
    text := textForRange snapshot item_range_in_file
    text_is_truncated := text_is_truncated
    signature_range_in_text := (signature_start, signature_end)
    signature_is_truncated := signature_is_truncated }

/-- `BufferDeclaration` from `declaration.rs`. The `Anchor` ranges are
modelled as the byte ranges they resolve to against the owning buffer's
current snapshot. -/
structure BufferDeclaration where
  parent : Option Nat
  identifier : Identifier
  item_range : Nat × Nat
  signature_range : Nat × Nat
deriving DecidableEq

/-- `Declaration` from `declaration.rs`. The `WeakEntity<Buffer>` of the
buffer variant is modelled as `Option BufferModel`: `none` is a weak
reference whose entity has been dropped (`read_with` returns `Err`). -/
inductive Declaration where
  | file (project_entry_id : Nat) (declaration : FileDeclaration)
  | buffer (buffer : Option BufferModel) (declaration : BufferDeclaration)
deriving DecidableEq

/-- `Declaration::item_text`: file variant returns the stored snapshot text;
buffer variant resolves the anchors and applies the same
expand-and-truncate policy, with `unwrap_or_default()` producing
`("", false)` when the weak buffer reference no longer resolves. -/
def Declaration.item_text : Declaration → List Char × Bool
  | .file _ declaration => (declaration.text, declaration.text_is_truncated)
  | .buffer none _ => ([], false)
  | .buffer (some bm) declaration =>
    let expanded := expand_range_to_line_boundaries_and_truncate
      declaration.item_range ITEM_TEXT_TRUNCATION_LENGTH bm.text
    (textForRange bm.text expanded.1, expanded.2)

/-- `Declaration::signature_text`: file variant slices the stored text by
`signature_range_in_text` (total in the model; the Rust slice panics when the
range is out of bounds); buffer variant mirrors `item_text` on the signature
range, with the same `unwrap_or_default()` fallback. -/
def Declaration.signature_text : Declaration → List Char × Bool
  | .file _ declaration =>
    (textForRange declaration.text declaration.signature_range_in_text,
      declaration.signature_is_truncated)
  | .buffer none _ => ([], false)
  | .buffer (some bm) declaration =>
    let expanded := expand_range_to_line_boundaries_and_truncate
      declaration.signature_range ITEM_TEXT_TRUNCATION_LENGTH bm.text
    (textForRange bm.text expanded.1, expanded.2)

/-! ## Text similarity (modelled from the spec; `text_similarity.rs` is not
under `src/`). None of the claims is decided by these values: they only fill
the similarity fields of `ScoreInputs`. -/

/-- Identifier-like character: alphanumeric or underscore. -/
def isIdentChar (c : Char) : Bool := c.isAlphanum || c = '_'

/-- Split a text into maximal runs of identifier characters; the accumulator
holds the current run reversed. -/
def tokenizeAux : List Char → List Char → List String
  | [], acc => if acc = [] then [] else [String.mk acc.reverse]
  | c :: rest, acc =>
    if isIdentChar c then tokenizeAux rest (c :: acc)
    else if acc = [] then tokenizeAux rest []
    else String.mk acc.reverse :: tokenizeAux rest []

/-- Modelled from the spec: `IdentifierOccurrences` represents a text as a
frequency-counted multiset of identifier tokens. -/
structure IdentifierOccurrences where
  tokens : List String
deriving DecidableEq

/-- Modelled from the spec: `IdentifierOccurrences::within_string` extracts
the identifier tokens of a text. -/
def IdentifierOccurrences.within_string (text : List Char) : IdentifierOccurrences :=
  ⟨tokenizeAux text []⟩

/-- Modelled from the spec: Jaccard similarity is the size of the token-set
intersection divided by the size of the union (frequencies ignored). -/
def jaccard_similarity (a b : IdentifierOccurrences) : ℚ :=
  let sa := a.tokens.dedup
  let sb := b.tokens.dedup
  let inter := (sa.filter (fun t => sb.contains t)).length
  (inter : ℚ) / ((sa.length + sb.length - inter : Nat) : ℚ)

/-- Modelled from the spec: weighted overlap coefficient is the sum of
per-token minimum frequencies divided by the smaller side's total count. -/
def weighted_overlap_coefficient (a b : IdentifierOccurrences) : ℚ :=
  let keys := (a.tokens ++ b.tokens).dedup
  let numer := keys.foldl (fun s t => s + min (a.tokens.count t) (b.tokens.count t)) 0
  (numer : ℚ) / ((min a.tokens.length b.tokens.length : Nat) : ℚ)

/-! ## References and excerpt -/

/-- Modelled from the spec: `reference.rs` is not under `src/`. A reference's
region tag: within the nearby window, inside a breadcrumb (ancestor
signature), or elsewhere in the excerpt body. -/
inductive ReferenceRegion where
  | nearby
  | breadcrumb
  | inBody
deriving DecidableEq

/-- Modelled from the spec: a reference carries an identifier, a byte range
in the current buffer, and a region tag. Scoring reads only the range start
(modelled as the resolved offset) and the region. -/
structure Reference where
  identifier : Identifier
  start_offset : Nat
  region : ReferenceRegion
deriving DecidableEq

/-- Modelled from the spec: `excerpt.rs` is not under `src/`. Scoring reads
only the excerpt's primary byte range. -/
structure EditPredictionExcerpt where
  range : Nat × Nat
deriving DecidableEq

/-! ## Scoring (`declaration_scoring.rs`) -/

/-- `ScoreInputs` from `declaration_scoring.rs`; `f32` fields are modelled
exactly over `ℚ`. -/
structure ScoreInputs where
  is_same_file : Bool
  is_referenced_nearby : Bool
  is_referenced_in_breadcrumb : Bool
  reference_count : Nat
  same_file_declaration_count : Nat
  declaration_count : Nat
  reference_line_distance : Nat
  declaration_line_distance : Nat
  declaration_line_distance_rank : Nat
  containing_range_vs_item_jaccard : ℚ
  containing_range_vs_signature_jaccard : ℚ
  adjacent_vs_item_jaccard : ℚ
  adjacent_vs_signature_jaccard : ℚ
  containing_range_vs_item_weighted_overlap : ℚ
  containing_range_vs_signature_weighted_overlap : ℚ
  adjacent_vs_item_weighted_overlap : ℚ
  adjacent_vs_signature_weighted_overlap : ℚ
deriving DecidableEq

/-- `Scores` from `declaration_scoring.rs`. -/
structure Scores where
  signature : ℚ
  declaration : ℚ
deriving DecidableEq

/-- `ScoreInputs::score` from `declaration_scoring.rs`. -/
def ScoreInputs.score (s : ScoreInputs) : Scores :=
  let accuracy_score : ℚ :=
    if s.is_same_file then (0.5 : ℚ) / (s.same_file_declaration_count : ℚ)
    else 1 / (s.declaration_count : ℚ)
  let distance_score : ℚ :=
    if s.is_referenced_nearby then
      1 / (1 + (s.reference_line_distance : ℚ) / 10) ^ 2
    else (0.5 : ℚ)
  let combined_score := 10 * accuracy_score * distance_score
  { signature := combined_score * s.containing_range_vs_signature_weighted_overlap
    declaration := 2 * combined_score * s.containing_range_vs_item_weighted_overlap }

/-- `ScoredSnippet` from `declaration_scoring.rs`. -/
structure ScoredSnippet where
  identifier : Identifier
  declaration : Declaration
  score_components : ScoreInputs
  scores : Scores
deriving DecidableEq

/-- `range_intersection` from `declaration_scoring.rs`. -/
def range_intersection (a b : Nat × Nat) : Option (Nat × Nat) :=
  let start := max a.1 b.1
  let stop := min a.2 b.2
  if start < stop then some (start, stop) else none

/-- The body of `score_snippet` after the reference-distance `unwrap`
succeeded, producing the `ScoredSnippet` record built by the source. -/
def score_snippet_core (identifier : Identifier) (references : List Reference)
    (declaration : Declaration) (is_same_file : Bool)
    (declaration_line_distance : Nat) (declaration_line_distance_rank : Nat)
    (same_file_declaration_count : Nat) (declaration_count : Nat)
    (containing_range_identifier_occurrences : IdentifierOccurrences)
    (adjacent_identifier_occurrences : IdentifierOccurrences)
    (reference_line_distance : Nat) : ScoredSnippet :=
  let is_referenced_nearby := references.any fun r => r.region = ReferenceRegion.nearby
  let is_referenced_in_breadcrumb :=
    references.any fun r => r.region = ReferenceRegion.breadcrumb
  let reference_count := references.length
  let item_source_occurrences :=
    IdentifierOccurrences.within_string declaration.item_text.1
  let item_signature_occurrences :=
    IdentifierOccurrences.within_string declaration.signature_text.1
  let score_components : ScoreInputs :=
    { is_same_file := is_same_file
      is_referenced_nearby := is_referenced_nearby
      is_referenced_in_breadcrumb := is_referenced_in_breadcrumb
      reference_count := reference_count
      same_file_declaration_count := same_file_declaration_count
      declaration_count := declaration_count
      reference_line_distance := reference_line_distance
      declaration_line_distance := declaration_line_distance
      declaration_line_distance_rank := declaration_line_distance_rank
      containing_range_vs_item_jaccard :=
        jaccard_similarity containing_range_identifier_occurrences item_source_occurrences
      containing_range_vs_signature_jaccard :=
        jaccard_similarity containing_range_identifier_occurrences item_signature_occurrences
      adjacent_vs_item_jaccard :=
        jaccard_similarity adjacent_identifier_occurrences item_source_occurrences
      adjacent_vs_signature_jaccard :=
        jaccard_similarity adjacent_identifier_occurrences item_signature_occurrences
      containing_range_vs_item_weighted_overlap :=
        weighted_overlap_coefficient containing_range_identifier_occurrences
          item_source_occurrences
      containing_range_vs_signature_weighted_overlap :=
        weighted_overlap_coefficient containing_range_identifier_occurrences
          item_signature_occurrences
      adjacent_vs_item_weighted_overlap :=
        weighted_overlap_coefficient adjacent_identifier_occurrences item_source_occurrences
      adjacent_vs_signature_weighted_overlap :=
        weighted_overlap_coefficient adjacent_identifier_occurrences
          item_signature_occurrences }
  { identifier := identifier
    declaration := declaration
    score_components := score_components
    scores := score_components.score }

/-- `score_snippet` from `declaration_scoring.rs`. The source computes
`references.iter().map(|r| |cursor.row - reference_row|).min().unwrap()`;
the `unwrap` panics when `references` is empty, which the model renders as
`none` (the Rust function otherwise always returns `Some`). -/
def score_snippet (identifier : Identifier) (references : List Reference)
    (declaration : Declaration) (is_same_file : Bool)
    (declaration_line_distance : Nat) (declaration_line_distance_rank : Nat)
    (same_file_declaration_count : Nat) (declaration_count : Nat)
    (containing_range_identifier_occurrences : IdentifierOccurrences)
    (adjacent_identifier_occurrences : IdentifierOccurrences)
    (cursor_row : Nat) (current_buffer : BufferModel) : Option ScoredSnippet :=
  (references.map fun r =>
      ((cursor_row : Int) - (offsetToRow current_buffer.text r.start_offset : Int)).natAbs).min?
    |>.map fun reference_line_distance =>
      score_snippet_core identifier references declaration is_same_file
        declaration_line_distance declaration_line_distance_rank
        same_file_declaration_count declaration_count
        containing_range_identifier_occurrences adjacent_identifier_occurrences
        reference_line_distance

/-- The `filter_map` closure of `scored_snippets`: drop a buffer-backed
same-file candidate whose item range intersects the excerpt's primary range;
keep every other candidate, with its same-file flag and line distance
(cross-file and file-backed candidates get distance 0). -/
def filter_map_candidate (current_buffer : BufferModel) (excerpt_range : Nat × Nat)
    (cursor_row : Nat) (d : Declaration) : Option (Bool × Nat × Declaration) :=
  match d with
  | .file _ _ => some (false, 0, d)
  | .buffer buffer declaration =>
    let is_same_file : Bool := match buffer with
      | some bm => bm.id == current_buffer.id
      | none => false
    if is_same_file then
      if (range_intersection declaration.item_range excerpt_range).isNone then
        let declaration_line := offsetToRow current_buffer.text declaration.item_range.1
        some (true, ((cursor_row : Int) - (declaration_line : Int)).natAbs, d)
      else none
    else some (false, 0, d)

/-- The comparator of `.sorted_by_key(|&(_, distance, _)| distance)`. -/
def distance_le (a b : Bool × Nat × Declaration) : Prop := a.2.1 ≤ b.2.1

instance : DecidableRel distance_le := fun a b => Nat.decLe a.2.1 b.2.1

instance : IsTotal (Bool × Nat × Declaration) distance_le :=
  ⟨fun a b => Nat.le_total a.2.1 b.2.1⟩

instance : IsTrans (Bool × Nat × Declaration) distance_le :=
  ⟨fun _ _ _ => Nat.le_trans⟩

/-- `itertools`' `sorted_by_key` is a stable sort by the distance key;
insertion sort placing each element before the first strictly-greater key is
extensionally the same stable sort. -/
def sort_by_distance (l : List (Bool × Nat × Declaration)) :
    List (Bool × Nat × Declaration) :=
  l.insertionSort distance_le

/-- The per-identifier body of `scored_snippets`'s `flat_map`: fetch up to 16
candidates (the fetched list is a parameter, as is the index's
`file_declaration_count` accessor), filter out self-referencing same-file
candidates, sort by line distance, enumerate ranks, and score each. -/
def scored_snippets_for_identifier (declarations : List Declaration)
    (file_declaration_count : Declaration → Nat) (identifier : Identifier)
    (references : List Reference) (excerpt_range : Nat × Nat)
    (containing_range_identifier_occurrences : IdentifierOccurrences)
    (adjacent_identifier_occurrences : IdentifierOccurrences)
    (cursor_row : Nat) (current_buffer : BufferModel) : Option (List ScoredSnippet) :=
  let declaration_count := declarations.length
  let filtered := declarations.filterMap
    (filter_map_candidate current_buffer excerpt_range cursor_row)
  let sorted := sort_by_distance filtered
  sorted.enum.mapM fun p =>
    score_snippet identifier references p.2.2.2 p.2.1 p.2.2.1 p.1
      (file_declaration_count p.2.2.2) declaration_count
      containing_range_identifier_occurrences adjacent_identifier_occurrences
      cursor_row current_buffer

/-- The adjacent text window of `scored_snippets`: from the start of the line
two rows above the cursor (`saturating_sub`) to the start of the line after
the cursor's row. -/
def adjacent_window_range (text : List Char) (cursor_row : Nat) : Nat × Nat :=
  (lineStartOffset text (cursor_row - 2), lineStartOffset text (cursor_row + 1))

/-- The text of the adjacent window. -/
def adjacent_window_text (text : List Char) (cursor_row : Nat) : List Char :=
  textForRange text (adjacent_window_range text cursor_row)

/-- `scored_snippets` from `declaration_scoring.rs`. The syntax index
(`syntax_index.rs`, not under `src/`) is read only through
`declarations_for_identifier` and `file_declaration_count`, passed as
functions; the identifier-to-references map is an association list. A `none`
result models the panic propagated out of `score_snippet`'s `unwrap`. -/
def scored_snippets (declarations_for : Identifier → List Declaration)
    (file_declaration_count : Declaration → Nat)
    (excerpt : EditPredictionExcerpt) (excerpt_body : List Char)
    (identifier_to_references : List (Identifier × List Reference))
    (cursor_offset : Nat) (current_buffer : BufferModel) :
    Option (List ScoredSnippet) :=
  let containing_range_identifier_occurrences :=
    IdentifierOccurrences.within_string excerpt_body
  let cursor_row := offsetToRow current_buffer.text cursor_offset
  let adjacent_identifier_occurrences :=
    IdentifierOccurrences.within_string
      (adjacent_window_text current_buffer.text cursor_row)
  (identifier_to_references.mapM fun p =>
      scored_snippets_for_identifier (declarations_for p.1) file_declaration_count
        p.1 p.2 excerpt.range containing_range_identifier_occurrences
        adjacent_identifier_occurrences cursor_row current_buffer).map List.flatten

end EditPredictionContext

/-! ## Superseded scoring variant (`scored_declaration.rs`) -/

namespace ScoredDeclaration

/-- `ScoreInputs` from `scored_declaration.rs`: same shape as the later
variant but with `definition` naming and the extra `definition_file_count`. -/
structure ScoreInputs where
  is_same_file : Bool
  is_referenced_nearby : Bool
  is_referenced_in_breadcrumb : Bool
  reference_count : Nat
  same_file_definition_count : Nat
  definition_count : Nat
  definition_file_count : Nat
  reference_line_distance : Nat
  definition_line_distance : Nat
  definition_line_distance_rank : Nat
  containing_range_vs_item_jaccard : ℚ
  containing_range_vs_signature_jaccard : ℚ
  adjacent_vs_item_jaccard : ℚ
  adjacent_vs_signature_jaccard : ℚ
  containing_range_vs_item_weighted_overlap : ℚ
  containing_range_vs_signature_weighted_overlap : ℚ
  adjacent_vs_item_weighted_overlap : ℚ
  adjacent_vs_signature_weighted_overlap : ℚ
deriving DecidableEq

/-- `Scores` from `scored_declaration.rs`. -/
structure Scores where
  signature : ℚ
  definition : ℚ
deriving DecidableEq

/-- `ScoreInputs::score` from `scored_declaration.rs`. -/
def ScoreInputs.score (s : ScoreInputs) : Scores :=
  let accuracy_score : ℚ :=
    if s.is_same_file then
      (0.5 : ℚ) / (s.same_file_definition_count : ℚ)
        + (0.5 : ℚ) / (s.definition_file_count : ℚ)
    else 1 / (s.definition_count : ℚ)
  let distance_score : ℚ :=
    if s.is_referenced_nearby then
      1 / (1 + (s.reference_line_distance : ℚ) / 10) ^ 2
    else (0.5 : ℚ)
  let combined_score := 10 * accuracy_score * distance_score
  { signature := combined_score * s.containing_range_vs_signature_weighted_overlap
    definition := 2 * combined_score * s.containing_range_vs_item_weighted_overlap }

end ScoredDeclaration

/-! ## Helper lemmas -/

namespace EditPredictionContext

lemma lineStartOffset_le_length (text : List Char) (r : Nat) :
    lineStartOffset text r ≤ text.length := by
  induction text generalizing r with
  | nil => cases r <;> simp [lineStartOffset]
  | cons c rest ih =>
    cases r with
    | zero => simp [lineStartOffset]
    | succ r =>
      simp only [lineStartOffset, List.length_cons]
      split
      · have h := ih r
        omega
      · have h := ih (r + 1)
        omega

lemma offsetToRow_of_no_newline (text : List Char) (h : '\n' ∉ text) (o : Nat) :
    offsetToRow text o = 0 := by
  induction text generalizing o with
  | nil => cases o <;> rfl
  | cons c rest ih =>
    cases o with
    | zero => rfl
    | succ o =>
      have hc : c ≠ '\n' := fun e => h (e ▸ List.mem_cons_self c rest)
      have hr : '\n' ∉ rest := fun hm => h (List.mem_cons_of_mem c hm)
      simp [offsetToRow, hc, ih hr]

lemma lineStartOffset_of_no_newline (text : List Char) (h : '\n' ∉ text) (r : Nat) :
    lineStartOffset text (r + 1) = text.length := by
  induction text generalizing r with
  | nil => rfl
  | cons c rest ih =>
    have hc : c ≠ '\n' := fun e => h (e ▸ List.mem_cons_self c rest)
    have hr : '\n' ∉ rest := fun hm => h (List.mem_cons_of_mem c hm)
    simp only [lineStartOffset, if_neg hc, ih hr, List.length_cons]
    omega

/-! ## Claim theorems: score formula (C1), distance monotonicity (C6),
stale references (C9), line expansion and truncation (C7), signature range
bounds at the failing input (C8) -/

/-- C1: for every `ScoreInputs` record, the signature-style score equals
`10 * accuracy_score * distance_score *
containing_range_vs_signature_weighted_overlap` and the declaration-style
score equals `2 * 10 * accuracy_score * distance_score *
containing_range_vs_item_weighted_overlap`, where `accuracy_score` is
`0.5 / same_file_declaration_count` for same-file inputs and
`1 / declaration_count` otherwise, and `distance_score` is
`1 / (1 + reference_line_distance/10)^2` when referenced nearby and `0.5`
otherwise. -/
theorem C1_score_formula (s : ScoreInputs) :
    s.score.signature =
      10 * (if s.is_same_file then (0.5 : ℚ) / (s.same_file_declaration_count : ℚ)
            else 1 / (s.declaration_count : ℚ))
        * (if s.is_referenced_nearby then
             1 / (1 + (s.reference_line_distance : ℚ) / 10) ^ 2 else (0.5 : ℚ))
        * s.containing_range_vs_signature_weighted_overlap
    ∧ s.score.declaration =
      2 * 10 * (if s.is_same_file then (0.5 : ℚ) / (s.same_file_declaration_count : ℚ)
            else 1 / (s.declaration_count : ℚ))
        * (if s.is_referenced_nearby then
             1 / (1 + (s.reference_line_distance : ℚ) / 10) ^ 2 else (0.5 : ℚ))
        * s.containing_range_vs_item_weighted_overlap := by
  constructor <;> simp only [ScoreInputs.score] <;> ring

/-- C6: two same-file, nearby-referenced `ScoreInputs` records that agree on
every field except `declaration_line_distance` yield equal scores (the
formula never reads that field), so the record with the larger distance never
scores strictly higher, in either style. -/
theorem C6_same_file_distance_monotone (s : ScoreInputs) (d1 d2 : Nat)
    (hsame : s.is_same_file = true) (hnear : s.is_referenced_nearby = true)
    (hle : d1 ≤ d2) :
    ¬ (({ s with declaration_line_distance := d2 } : ScoreInputs).score.signature >
        ({ s with declaration_line_distance := d1 } : ScoreInputs).score.signature)
    ∧ ¬ (({ s with declaration_line_distance := d2 } : ScoreInputs).score.declaration >
        ({ s with declaration_line_distance := d1 } : ScoreInputs).score.declaration) := by
  have h : ∀ d : Nat,
      ({ s with declaration_line_distance := d } : ScoreInputs).score = s.score :=
    fun _ => rfl
  rw [h, h]
  exact ⟨lt_irrefl _, lt_irrefl _⟩

/-- Witness for C6 at a concrete record and distances 1 ≤ 2. -/
theorem C6_same_file_distance_monotone_witness :
    let s : ScoreInputs :=
      { is_same_file := true, is_referenced_nearby := true
        is_referenced_in_breadcrumb := false, reference_count := 1
        same_file_declaration_count := 1, declaration_count := 2
        reference_line_distance := 3, declaration_line_distance := 1
        declaration_line_distance_rank := 0
        containing_range_vs_item_jaccard := 0
        containing_range_vs_signature_jaccard := 0
        adjacent_vs_item_jaccard := 0, adjacent_vs_signature_jaccard := 0
        containing_range_vs_item_weighted_overlap := 1
        containing_range_vs_signature_weighted_overlap := 1
        adjacent_vs_item_weighted_overlap := 0
        adjacent_vs_signature_weighted_overlap := 0 }
    ¬ (({ s with declaration_line_distance := 2 } : ScoreInputs).score.signature >
        ({ s with declaration_line_distance := 1 } : ScoreInputs).score.signature)
    ∧ ¬ (({ s with declaration_line_distance := 2 } : ScoreInputs).score.declaration >
        ({ s with declaration_line_distance := 1 } : ScoreInputs).score.declaration) :=
  C6_same_file_distance_monotone _ 1 2 rfl rfl (by decide)

/-- C9: a buffer-backed declaration whose weak buffer reference no longer
resolves yields empty text with a false truncation flag from both
`item_text` and `signature_text`, instead of propagating an error. -/
theorem C9_stale_buffer_reference (bd : BufferDeclaration) :
    (Declaration.buffer none bd).item_text = ([], false)
    ∧ (Declaration.buffer none bd).signature_text = ([], false) :=
  ⟨rfl, rfl⟩

/-- C7: `from_outline` stores the item range expanded to start at column 0 of
its first line and end at the start of the line after its last line, then
truncated to at most 1024 bytes; the truncation flag is set exactly when the
line-expanded range exceeded 1024 bytes, and the stored text never exceeds
1024 bytes. -/
theorem C7_item_range_line_expansion_and_truncation
    (declaration : OutlineDeclaration) (snapshot : List Char) :
    (FileDeclaration.from_outline declaration snapshot).item_range_in_file
      = (expandStart snapshot declaration.item_range,
         if expandStop snapshot declaration.item_range
              - expandStart snapshot declaration.item_range > 1024
         then expandStart snapshot declaration.item_range + 1024
         else expandStop snapshot declaration.item_range)
    ∧ (FileDeclaration.from_outline declaration snapshot).text_is_truncated
      = decide (expandStop snapshot declaration.item_range
          - expandStart snapshot declaration.item_range > 1024)
    ∧ (FileDeclaration.from_outline declaration snapshot).text
      = textForRange snapshot
          (FileDeclaration.from_outline declaration snapshot).item_range_in_file
    ∧ (FileDeclaration.from_outline declaration snapshot).text.length ≤ 1024 := by
  have hstop : expandStop snapshot declaration.item_range ≤ snapshot.length :=
    lineStartOffset_le_length _ _
  simp only [FileDeclaration.from_outline, expand_range_to_line_boundaries_and_truncate,
    ITEM_TEXT_TRUNCATION_LENGTH]
  generalize ha : expandStart snapshot declaration.item_range = a at *
  generalize hb : expandStop snapshot declaration.item_range = b at *
  have hmin : min (if b - a > 1024 then a + 1024 else b) snapshot.length
      = if b - a > 1024 then a + 1024 else b := by
    by_cases h : b - a > 1024
    · rw [if_pos h]; omega
    · rw [if_neg h]; omega
  rw [hmin]
  refine ⟨rfl, trivial, trivial, ?_⟩
  simp only [textForRange, List.length_take, List.length_drop]
  by_cases h : b - a > 1024
  · rw [if_pos h]; omega
  · rw [if_neg h]; omega

/-- Identifier for the C8 failing input. -/
def identC8 : Identifier := ⟨"big_item", 0⟩

/-- C8 failing input: an outline declaration in a 1500-byte single-line file
with item range `0..1300` and signature range `1100..1200` (a signature
contained in the item range but lying beyond the 1024-byte truncation
point). -/
def outlineC8 : OutlineDeclaration :=
  { identifier := identC8, item_range := (0, 1300)
    signature_range := (1100, 1200), parent := none }

/-- The C8 computation over any newline-free 1500-byte text. -/
lemma from_outline_outlineC8_spec (t : List Char) (hnn : '\n' ∉ t)
    (hlen : t.length = 1500) :
    ((FileDeclaration.from_outline outlineC8 t).text).length = 1024
    ∧ (FileDeclaration.from_outline outlineC8 t).signature_range_in_text = (1100, 1024)
    ∧ (FileDeclaration.from_outline outlineC8 t).signature_range_in_text.1
        > ((FileDeclaration.from_outline outlineC8 t).text).length := by
  have h00 : offsetToRow t 0 = 0 := by cases t <;> rfl
  have hls0 : lineStartOffset t 0 = 0 := by cases t <;> rfl
  have h0 : offsetToRow t 1300 = 0 := offsetToRow_of_no_newline _ hnn 1300
  have h1 : lineStartOffset t 1 = 1500 := by
    rw [lineStartOffset_of_no_newline t hnn 0, hlen]
  have hstart : expandStart t (0, 1300) = 0 := by simp [expandStart, h00, hls0]
  have hstop : expandStop t (0, 1300) = 1500 := by simp [expandStop, h0, h1]
  simp [FileDeclaration.from_outline, expand_range_to_line_boundaries_and_truncate,
    ITEM_TEXT_TRUNCATION_LENGTH, outlineC8, hstart, hstop, textForRange, hlen]

/-- C8: at the failing input the line-expanded item range `0..1500` is
truncated to 1024 bytes, but only the signature's end is clamped: the stored
signature range becomes `1100..1024`, whose start exceeds both its end and
the stored text's length. The slice `declaration.text[1100..1024]` taken by
`signature_text` is out of bounds (the Rust slice panics), contradicting the
claimed invariant and the field's own documentation. -/
theorem C8_signature_range_out_of_bounds :
    ((FileDeclaration.from_outline outlineC8 (List.replicate 1500 'a')).text).length = 1024
    ∧ (FileDeclaration.from_outline outlineC8
        (List.replicate 1500 'a')).signature_range_in_text = (1100, 1024)
    ∧ (FileDeclaration.from_outline outlineC8
          (List.replicate 1500 'a')).signature_range_in_text.1
        > ((FileDeclaration.from_outline outlineC8 (List.replicate 1500 'a')).text).length :=
  from_outline_outlineC8_spec (List.replicate 1500 'a')
    (fun hm => absurd (List.mem_replicate.mp hm).2 (by decide))
    (by rw [List.length_replicate])

/-! ## C4: the adjacent window -/

/-- Offsets strictly before the start of line `r` lie on rows before `r`. -/
lemma offsetToRow_lt_of_lt_lineStartOffset (text : List Char) (r o : Nat)
    (h : o < lineStartOffset text r) : offsetToRow text o < r := by
  induction text generalizing r o with
  | nil => cases r <;> simp [lineStartOffset] at h
  | cons c rest ih =>
    cases r with
    | zero => simp [lineStartOffset] at h
    | succ r =>
      by_cases hc : c = '\n'
      · cases o with
        | zero => simp [offsetToRow]
        | succ o =>
          simp only [lineStartOffset, if_pos hc] at h
          have := ih r o (by omega)
          simp only [offsetToRow, if_pos hc]
          omega
      · cases o with
        | zero => simp [offsetToRow]
        | succ o =>
          simp only [lineStartOffset, if_neg hc] at h
          have := ih (r + 1) o (by omega)
          simp only [offsetToRow, if_neg hc]
          omega

/-- In-bounds offsets at or after the start of line `r` lie on row `r` or
later. -/
lemma le_offsetToRow_of_lineStartOffset_le (text : List Char) (r o : Nat)
    (ho : o < text.length) (h : lineStartOffset text r ≤ o) :
    r ≤ offsetToRow text o := by
  induction text generalizing r o with
  | nil => simp at ho
  | cons c rest ih =>
    cases r with
    | zero => omega
    | succ r =>
      have ho' : ∀ o' : Nat, o = o' + 1 → o' < rest.length := by
        intro o' he
        simp only [List.length_cons] at ho
        omega
      by_cases hc : c = '\n'
      · simp only [lineStartOffset, if_pos hc] at h
        cases o with
        | zero => omega
        | succ o =>
          have := ih r o (ho' o rfl) (by omega)
          simp only [offsetToRow, if_pos hc]
          omega
      · simp only [lineStartOffset, if_neg hc] at h
        cases o with
        | zero => omega
        | succ o =>
          have := ih (r + 1) o (ho' o rfl) (by omega)
          simp only [offsetToRow, if_neg hc]
          omega

/-- The text for the C4 counterexample: five one-character lines. -/
def textC4 : List Char := ['a', '\n', 'b', '\n', 'c', '\n', 'd', '\n', 'e']

/-- C4 counterexample: with the cursor on row 2 of `textC4`, a window
spanning the two lines before the cursor's line, the cursor's line, and one
line after (rows 0 through 3) would be the range from the start of line 0 to
the start of line 4, i.e. `"a\nb\nc\nd\n"`; the code's window instead stops
at the start of line 3 (`"a\nb\nc\n"`) and row 3's character `d` is not in
it, so the claim is false at this input. -/
theorem C4_counterexample :
    adjacent_window_text textC4 2
      = textForRange textC4 (lineStartOffset textC4 0, lineStartOffset textC4 3)
    ∧ adjacent_window_text textC4 2
      ≠ textForRange textC4 (lineStartOffset textC4 0, lineStartOffset textC4 4)
    ∧ 'd' ∉ adjacent_window_text textC4 2 := by decide

/-- C4 (amended): the adjacent window runs from the start of the line two
rows above the cursor (saturating at 0) to the start of the line after the
cursor's row: every offset in the window lies on a row between
`cursor_row - 2` and `cursor_row`, so the window covers the two lines before
the cursor's line and the cursor's line itself, and no content of the line
after the cursor's line. -/
theorem C4_adjacent_window_amended (text : List Char) (cursor_row : Nat) :
    adjacent_window_range text cursor_row
      = (lineStartOffset text (cursor_row - 2), lineStartOffset text (cursor_row + 1))
    ∧ (∀ o, o < (adjacent_window_range text cursor_row).2 →
        offsetToRow text o ≤ cursor_row)
    ∧ (∀ o, o < text.length → (adjacent_window_range text cursor_row).1 ≤ o →
        cursor_row - 2 ≤ offsetToRow text o) := by
  refine ⟨rfl, ?_, ?_⟩
  · intro o ho
    have := offsetToRow_lt_of_lt_lineStartOffset text (cursor_row + 1) o ho
    omega
  · intro o holen hge
    exact le_offsetToRow_of_lineStartOffset_le text (cursor_row - 2) o holen hge

/-- Witness for the amended C4 at `textC4`, cursor row 2, offset 0. -/
theorem C4_adjacent_window_amended_witness :
    0 < textC4.length ∧ (adjacent_window_range textC4 2).1 ≤ 0
    ∧ 2 - 2 ≤ offsetToRow textC4 0 :=
  ⟨by decide, by decide,
    (C4_adjacent_window_amended textC4 2).2.2 0 (by decide) (by decide)⟩

/-! ## The candidate pipeline: exclusion, sorting, ranks (C2, C3, C10) -/

/-- The self-reference exclusion condition of `scored_snippets`: a candidate
is dropped exactly when it is buffer-backed, its buffer resolves to the
cursor's buffer, and its item range intersects the excerpt's primary
range. -/
def is_excluded (current_buffer : BufferModel) (excerpt_range : Nat × Nat) :
    Declaration → Bool
  | .buffer (some bm) bd =>
      bm.id == current_buffer.id
        && (range_intersection bd.item_range excerpt_range).isSome
  | .buffer none _ => false
  | .file _ _ => false

lemma filter_map_candidate_eq_none_iff (cb : BufferModel) (er : Nat × Nat)
    (row : Nat) (d : Declaration) :
    filter_map_candidate cb er row d = none ↔ is_excluded cb er d = true := by
  cases d with
  | file p fd => simp [filter_map_candidate, is_excluded]
  | buffer b bd =>
    cases b with
    | none => simp [filter_map_candidate, is_excluded]
    | some bm =>
      by_cases hid : (bm.id == cb.id) = true
      · by_cases hint : (range_intersection bd.item_range er).isNone = true
        · simp [filter_map_candidate, is_excluded, hid, hint,
            Option.isNone_iff_eq_none.mp hint]
        · simp only [filter_map_candidate, is_excluded, hid, if_true, hint, if_false]
          simp only [Bool.not_eq_true, Option.isNone_eq_false_iff] at hint
          simp [hint]
      · simp [filter_map_candidate, is_excluded, hid]

lemma filter_map_candidate_some_decl (cb : BufferModel) (er : Nat × Nat)
    (row : Nat) (d : Declaration) (x : Bool × Nat × Declaration)
    (h : filter_map_candidate cb er row d = some x) : x.2.2 = d := by
  cases d with
  | file p fd =>
    simp only [filter_map_candidate, Option.some.injEq] at h
    rw [← h]
  | buffer b bd =>
    cases b with
    | none =>
      simp only [filter_map_candidate, Bool.false_eq_true, if_false,
        Option.some.injEq] at h
      rw [← h]
    | some bm =>
      by_cases hid : (bm.id == cb.id) = true
      · by_cases hint : (range_intersection bd.item_range er).isNone = true
        · simp only [filter_map_candidate, hid, if_true, hint, Option.some.injEq] at h
          rw [← h]
        · simp [filter_map_candidate, hid, hint] at h
      · simp only [filter_map_candidate, hid, Bool.false_eq_true, if_false,
          Option.some.injEq] at h
        rw [← h]

/-- The surviving entries of the `filter_map`, projected back to their
declarations, are exactly the fetched candidates that are not excluded. -/
lemma filterMap_candidates_map_decl (cb : BufferModel) (er : Nat × Nat)
    (row : Nat) (ds : List Declaration) :
    (ds.filterMap (filter_map_candidate cb er row)).map (fun p => p.2.2)
      = ds.filter (fun d => ! is_excluded cb er d) := by
  induction ds with
  | nil => rfl
  | cons d ds ih =>
    by_cases hd : is_excluded cb er d = true
    · have hn : filter_map_candidate cb er row d = none :=
        (filter_map_candidate_eq_none_iff cb er row d).mpr hd
      simp [List.filterMap_cons, hn, List.filter_cons, hd, ih]
    · have hn : filter_map_candidate cb er row d ≠ none := fun hn =>
        hd ((filter_map_candidate_eq_none_iff cb er row d).mp hn)
      obtain ⟨x, hx⟩ := Option.ne_none_iff_exists'.mp hn
      have hxd := filter_map_candidate_some_decl cb er row d x hx
      simp [List.filterMap_cons, hx, List.filter_cons, hd, ih, hxd]

lemma mapM_option_eq_some_map {α β : Type} (f : α → Option β) (g : α → β) :
    ∀ l : List α, (∀ a ∈ l, f a = some (g a)) → l.mapM f = some (l.map g) := by
  intro l
  induction l with
  | nil => intro _; rfl
  | cons a t ih =>
    intro h
    rw [List.mapM_cons, h a (List.mem_cons_self a t),
      ih fun b hb => h b (List.mem_cons_of_mem a hb)]
    rfl

lemma min?_isSome_of_ne_nil (l : List Nat) (h : l ≠ []) : ∃ v, l.min? = some v := by
  cases l with
  | nil => exact absurd rfl h
  | cons a t => exact ⟨t.foldl min a, rfl⟩

/-- The minimum reference distance fed to `score_snippet_core` once the
`unwrap` succeeded. -/
def min_reference_line_distance (references : List Reference) (cursor_row : Nat)
    (current_buffer : BufferModel) : Nat :=
  ((references.map fun r =>
      ((cursor_row : Int) - (offsetToRow current_buffer.text r.start_offset : Int)).natAbs).min?).getD 0

lemma score_snippet_eq_some (identifier : Identifier) (references : List Reference)
    (declaration : Declaration) (is_same_file : Bool) (dld rank sfdc dc : Nat)
    (co ao : IdentifierOccurrences) (row : Nat) (cb : BufferModel)
    (h : references ≠ []) :
    score_snippet identifier references declaration is_same_file dld rank sfdc dc
        co ao row cb
      = some (score_snippet_core identifier references declaration is_same_file
          dld rank sfdc dc co ao (min_reference_line_distance references row cb)) := by
  obtain ⟨v, hv⟩ := min?_isSome_of_ne_nil
    (references.map fun r =>
      ((row : Int) - (offsetToRow cb.text r.start_offset : Int)).natAbs)
    (by simpa using h)
  simp [score_snippet, min_reference_line_distance, hv]

/-- Closed form of the per-identifier scoring when the reference list is
non-empty: filter, stable-sort by distance, enumerate ranks, score each. -/
lemma scored_snippets_for_identifier_eq (declarations : List Declaration)
    (fdc : Declaration → Nat) (identifier : Identifier)
    (references : List Reference) (er : Nat × Nat)
    (co ao : IdentifierOccurrences) (row : Nat) (cb : BufferModel)
    (h : references ≠ []) :
    scored_snippets_for_identifier declarations fdc identifier references er
        co ao row cb
      = some ((sort_by_distance
            (declarations.filterMap (filter_map_candidate cb er row))).enum.map
          fun p => score_snippet_core identifier references p.2.2.2 p.2.1 p.2.2.1
            p.1 (fdc p.2.2.2) declarations.length co ao
            (min_reference_line_distance references row cb)) := by
  exact mapM_option_eq_some_map _ _ _ fun p _ =>
    score_snippet_eq_some identifier references p.2.2.2 p.2.1 p.2.2.1 p.1
      (fdc p.2.2.2) declarations.length co ao row cb h

/-- C2: with a non-empty reference list for the identifier, scoring succeeds,
and the produced snippets' declarations are exactly (as a multiset) the
fetched candidates that are not excluded; a fetched candidate is excluded
exactly when it is buffer-backed, its buffer is the cursor's buffer, and its
resolved item range intersects the excerpt's primary range. -/
theorem C2_self_reference_exclusion (declarations : List Declaration)
    (fdc : Declaration → Nat) (identifier : Identifier)
    (references : List Reference) (er : Nat × Nat)
    (co ao : IdentifierOccurrences) (row : Nat) (cb : BufferModel)
    (h : references ≠ []) :
    ∃ out, scored_snippets_for_identifier declarations fdc identifier references
        er co ao row cb = some out
      ∧ (out.map ScoredSnippet.declaration).Perm
          (declarations.filter fun d => ! is_excluded cb er d)
      ∧ ∀ d : Declaration, is_excluded cb er d = true ↔
          ∃ bm bd, d = Declaration.buffer (some bm) bd ∧ bm.id = cb.id
            ∧ (range_intersection bd.item_range er).isSome = true := by
  refine ⟨_, scored_snippets_for_identifier_eq declarations fdc identifier
    references er co ao row cb h, ?_, ?_⟩
  · have h1 : ((sort_by_distance
        (declarations.filterMap (filter_map_candidate cb er row))).enum.map
          fun p => score_snippet_core identifier references p.2.2.2 p.2.1 p.2.2.1
            p.1 (fdc p.2.2.2) declarations.length co ao
            (min_reference_line_distance references row cb)).map
          ScoredSnippet.declaration
        = (sort_by_distance
            (declarations.filterMap (filter_map_candidate cb er row))).enum.map
          fun p => p.2.2.2 := by
      rw [List.map_map]
      rfl
    rw [h1]
    have h2 : ((sort_by_distance
        (declarations.filterMap (filter_map_candidate cb er row))).enum.map
          fun p : Nat × (Bool × Nat × Declaration) => p.2.2.2)
        = (sort_by_distance
            (declarations.filterMap (filter_map_candidate cb er row))).map
          fun q => q.2.2 := by
      have h3 := List.enum_map_snd (sort_by_distance
        (declarations.filterMap (filter_map_candidate cb er row)))
      calc ((sort_by_distance
          (declarations.filterMap (filter_map_candidate cb er row))).enum.map
            fun p : Nat × (Bool × Nat × Declaration) => p.2.2.2)
          = (((sort_by_distance
              (declarations.filterMap (filter_map_candidate cb er row))).enum.map
                Prod.snd).map fun q => q.2.2) := by rw [List.map_map]; rfl
        _ = _ := by rw [h3]
    rw [h2]
    have hperm := (List.perm_insertionSort distance_le
      (declarations.filterMap (filter_map_candidate cb er row))).map
      fun q : Bool × Nat × Declaration => q.2.2
    rw [filterMap_candidates_map_decl cb er row declarations] at hperm
    exact hperm
  · intro d
    cases d with
    | file p fd => simp [is_excluded]
    | buffer b bd =>
      cases b with
      | none => simp [is_excluded]
      | some bm =>
        simp only [is_excluded, Bool.and_eq_true, beq_iff_eq,
          Declaration.buffer.injEq, Option.some.injEq]
        constructor
        · rintro ⟨h1, h2⟩
          exact ⟨bm, bd, ⟨rfl, rfl⟩, h1, h2⟩
        · rintro ⟨bm', bd', ⟨rfl, rfl⟩, h1, h2⟩
          exact ⟨h1, h2⟩

/-- Witness inputs for the pipeline theorems. -/
def identW : Identifier := ⟨"w", 0⟩

/-- A reference used by witnesses. -/
def refW : Reference := ⟨identW, 0, ReferenceRegion.nearby⟩

/-- A buffer used by witnesses. -/
def cbW : BufferModel := ⟨0, ['x']⟩

/-- Witness for C2 with no candidates and one reference. -/
theorem C2_self_reference_exclusion_witness :
    ([refW] : List Reference) ≠ []
    ∧ ∃ out, scored_snippets_for_identifier [] (fun _ => 1) identW [refW] (0, 0)
        ⟨[]⟩ ⟨[]⟩ 0 cbW = some out
      ∧ (out.map ScoredSnippet.declaration).Perm
          (([] : List Declaration).filter fun d => ! is_excluded cbW (0, 0) d)
      ∧ ∀ d : Declaration, is_excluded cbW (0, 0) d = true ↔
          ∃ bm bd, d = Declaration.buffer (some bm) bd ∧ bm.id = cbW.id
            ∧ (range_intersection bd.item_range (0, 0)).isSome = true :=
  ⟨by decide, C2_self_reference_exclusion [] (fun _ => 1) identW [refW] (0, 0)
    ⟨[]⟩ ⟨[]⟩ 0 cbW (by decide)⟩

/-! ## C3: distance assignment and rank -/

/-- Identifier for the C3 counterexample. -/
def identC3 : Identifier := ⟨"foo", 0⟩

/-- Eight short lines of buffer text for the C3 counterexample. -/
def textC3 : List Char :=
  ['x', '\n', 'y', '\n', 'z', '\n', 'w', '\n', 'q', '\n', 'r', '\n', 's', '\n', 't']

/-- The cursor's buffer for the C3 counterexample. -/
def cbC3 : BufferModel := ⟨1, textC3⟩

/-- A same-file buffer-backed candidate declaring `foo` on row 0. -/
def dSameC3 : Declaration :=
  Declaration.buffer (some cbC3) ⟨none, identC3, (0, 1), (0, 1)⟩

/-- A cross-file file-backed candidate declaring `foo`. -/
def dCrossC3 : Declaration :=
  Declaration.file 2 ⟨none, identC3, (0, 4), ['f', 'n', ' ', 'f'], false, (0, 2), false⟩

/-- References to `foo` for the C3 counterexample. -/
def refsC3 : List Reference := [⟨identC3, 0, ReferenceRegion.nearby⟩]

/-- C3 counterexample: with the cursor on row 5, an excerpt range `10..12`,
and candidates fetched in the order [same-file declaration on row 0,
cross-file declaration], both survive filtering; the same-file candidate has
distance 5 and the cross-file one distance 0, so after the distance sort the
single same-file candidate receives `declaration_line_distance_rank = 1` —
its rank among all surviving candidates — even though its rank among the
same-file candidates alone would be 0. The claim is false at this input. -/
theorem C3_counterexample :
    (scored_snippets_for_identifier [dSameC3, dCrossC3] (fun _ => 1) identC3
        refsC3 (10, 12) ⟨[]⟩ ⟨[]⟩ 5 cbC3).map (fun out =>
          (out.filter fun s => s.score_components.is_same_file).map
            fun s => s.score_components.declaration_line_distance_rank)
      = some [1] := by decide

/-- C3 (amended): every surviving same-file candidate is assigned line
distance `|cursor row - declaration start row|`, every cross-file (or
dropped-buffer or file-backed) candidate distance 0; the recorded
`declaration_line_distance_rank` values enumerate positions in the
distance-sorted order over all surviving candidates of the identifier
(not only the same-file ones), and the recorded distances are ascending in
output order. -/
theorem C3_distance_assignment_and_rank_amended (declarations : List Declaration)
    (fdc : Declaration → Nat) (identifier : Identifier)
    (references : List Reference) (er : Nat × Nat)
    (co ao : IdentifierOccurrences) (row : Nat) (cb : BufferModel)
    (h : references ≠ []) :
    (∀ bm bd, bm.id = cb.id →
        (range_intersection bd.item_range er).isNone = true →
        filter_map_candidate cb er row (Declaration.buffer (some bm) bd)
          = some (true,
              ((row : Int) - (offsetToRow cb.text bd.item_range.1 : Int)).natAbs,
              Declaration.buffer (some bm) bd))
    ∧ (∀ p fd, filter_map_candidate cb er row (Declaration.file p fd)
        = some (false, 0, Declaration.file p fd))
    ∧ (∀ bm bd, bm.id ≠ cb.id →
        filter_map_candidate cb er row (Declaration.buffer (some bm) bd)
          = some (false, 0, Declaration.buffer (some bm) bd))
    ∧ (∀ bd, filter_map_candidate cb er row (Declaration.buffer none bd)
        = some (false, 0, Declaration.buffer none bd))
    ∧ ∃ out, scored_snippets_for_identifier declarations fdc identifier
          references er co ao row cb = some out
        ∧ out.map (fun s => s.score_components.declaration_line_distance_rank)
            = List.range out.length
        ∧ out.map (fun s => (s.score_components.is_same_file,
              s.score_components.declaration_line_distance))
            = ((sort_by_distance
                (declarations.filterMap (filter_map_candidate cb er row))).map
              (fun q => (q.1, q.2.1)))
        ∧ (out.map fun s =>
            s.score_components.declaration_line_distance).Sorted (· ≤ ·) := by
  refine ⟨?_, fun p fd => rfl, ?_, fun bd => rfl, ?_⟩
  · intro bm bd h1 h2
    simp [filter_map_candidate, h1, h2]
  · intro bm bd hne
    simp [filter_map_candidate, hne]
  · refine ⟨_, scored_snippets_for_identifier_eq declarations fdc identifier
      references er co ao row cb h, ?_, ?_, ?_⟩
    · rw [List.map_map, List.length_map, List.enum_length]
      exact List.enum_map_fst (sort_by_distance
        (declarations.filterMap (filter_map_candidate cb er row)))
    · rw [List.map_map]
      have h3 := congrArg (List.map
          fun q : Bool × Nat × Declaration => (q.1, q.2.1))
        (List.enum_map_snd (sort_by_distance
          (declarations.filterMap (filter_map_candidate cb er row))))
      rw [List.map_map] at h3
      exact h3
    · rw [List.map_map]
      have hs := List.sorted_insertionSort distance_le
        (declarations.filterMap (filter_map_candidate cb er row))
      have hs2 : List.Pairwise
          (fun a b : Nat × (Bool × Nat × Declaration) => a.2.2.1 ≤ b.2.2.1)
          (sort_by_distance
            (declarations.filterMap (filter_map_candidate cb er row))).enum := by
        have hpm := List.pairwise_map
          (f := Prod.snd (α := Nat) (β := Bool × Nat × Declaration))
          (R := fun a b : Bool × Nat × Declaration => a.2.1 ≤ b.2.1)
          (l := (sort_by_distance
            (declarations.filterMap (filter_map_candidate cb er row))).enum)
        rw [List.enum_map_snd] at hpm
        exact hpm.mp hs
      exact List.pairwise_map.mpr hs2

/-- Witness for the amended C3 with no candidates and one reference. -/
theorem C3_distance_assignment_and_rank_amended_witness :
    ([refW] : List Reference) ≠ []
    ∧ ∀ p fd, filter_map_candidate cbW (0, 0) 0 (Declaration.file p fd)
        = some (false, 0, Declaration.file p fd) :=
  ⟨by decide, (C3_distance_assignment_and_rank_amended [] (fun _ => 1) identW
    [refW] (0, 0) ⟨[]⟩ ⟨[]⟩ 0 cbW (by decide)).2.1⟩

/-! ## C10: totality under the non-empty-references precondition -/

lemma mapM_option_isSome {α β : Type} (f : α → Option β) :
    ∀ l : List α, (∀ a ∈ l, (f a).isSome = true) → (l.mapM f).isSome = true := by
  intro l
  induction l with
  | nil => intro _; rfl
  | cons a t ih =>
    intro h
    obtain ⟨b, hb⟩ := Option.isSome_iff_exists.mp (h a (List.mem_cons_self a t))
    obtain ⟨bs, hbs⟩ := Option.isSome_iff_exists.mp
      (ih fun x hx => h x (List.mem_cons_of_mem a hx))
    rw [List.mapM_cons, hb, hbs]
    rfl

/-- Identifier for the C10 failing input. -/
def identC10 : Identifier := ⟨"p", 0⟩

/-- A file-backed candidate for `p`, so that the failing identifier has at
least one candidate to score. -/
def declC10 : Declaration :=
  Declaration.file 3 ⟨none, identC10, (0, 2), ['p', 'x'], false, (0, 1), false⟩

/-- The cursor's (empty) buffer for the C10 failing input. -/
def cbC10 : BufferModel := ⟨0, []⟩

/-- C10: when every identifier in the input map has a non-empty reference
list, `score_snippet`'s minimum always exists and scoring is total; and at a
concrete input mapping an identifier with one candidate to an empty
reference list, the computation hits the `unwrap` of an empty minimum and
panics (modelled as `none`) instead of skipping the identifier. -/
theorem C10_empty_reference_list_precondition :
    (∀ (entries : List (Identifier × List Reference))
        (declarations_for : Identifier → List Declaration)
        (fdc : Declaration → Nat) (excerpt : EditPredictionExcerpt)
        (body : List Char) (cursor : Nat) (cb : BufferModel),
        (∀ e ∈ entries, e.2 ≠ []) →
        (scored_snippets declarations_for fdc excerpt body entries cursor
            cb).isSome = true)
    ∧ scored_snippets (fun _ => [declC10]) (fun _ => 1) ⟨(0, 0)⟩ []
        [(identC10, [])] 0 cbC10 = none := by
  constructor
  · intro entries declarations_for fdc excerpt body cursor cb hne
    have h1 := mapM_option_isSome
      (fun p : Identifier × List Reference =>
        scored_snippets_for_identifier (declarations_for p.1) fdc p.1 p.2
          excerpt.range (IdentifierOccurrences.within_string body)
          (IdentifierOccurrences.within_string
            (adjacent_window_text cb.text (offsetToRow cb.text cursor)))
          (offsetToRow cb.text cursor) cb)
      entries
      (fun a ha => by
        have he := scored_snippets_for_identifier_eq (declarations_for a.1) fdc
          a.1 a.2 excerpt.range (IdentifierOccurrences.within_string body)
          (IdentifierOccurrences.within_string
            (adjacent_window_text cb.text (offsetToRow cb.text cursor)))
          (offsetToRow cb.text cursor) cb (hne a ha)
        simp only []
        rw [he]
        rfl)
    obtain ⟨v, hv⟩ := Option.isSome_iff_exists.mp h1
    show ((entries.mapM fun p : Identifier × List Reference =>
        scored_snippets_for_identifier (declarations_for p.1) fdc p.1 p.2
          excerpt.range (IdentifierOccurrences.within_string body)
          (IdentifierOccurrences.within_string
            (adjacent_window_text cb.text (offsetToRow cb.text cursor)))
          (offsetToRow cb.text cursor) cb).map List.flatten).isSome = true
    rw [hv]
    rfl
  · decide

/-- Witness for C10 with one identifier carrying one reference. -/
theorem C10_empty_reference_list_precondition_witness :
    (∀ e ∈ ([(identC10, [refW])] : List (Identifier × List Reference)), e.2 ≠ [])
    ∧ (scored_snippets (fun _ => [declC10]) (fun _ => 1) ⟨(0, 0)⟩ []
        [(identC10, [refW])] 0 cbC10).isSome = true :=
  ⟨by decide, C10_empty_reference_list_precondition.1 [(identC10, [refW])]
    (fun _ => [declC10]) (fun _ => 1) ⟨(0, 0)⟩ [] 0 cbC10 (by decide)⟩

end EditPredictionContext

/-! ## C5: relation between the two scoring variants -/

/-- The common core of the two scoring formulas, parameterized over the
accuracy term: distance score, combined score, and the (signature,
definition/declaration) score pair. -/
def score_with_accuracy (accuracy_score : ℚ) (is_referenced_nearby : Bool)
    (reference_line_distance : Nat) (signature_overlap item_overlap : ℚ) :
    ℚ × ℚ :=
  let distance_score : ℚ :=
    if is_referenced_nearby then
      1 / (1 + (reference_line_distance : ℚ) / 10) ^ 2
    else (0.5 : ℚ)
  let combined_score := 10 * accuracy_score * distance_score
  (combined_score * signature_overlap, 2 * combined_score * item_overlap)

/-- C5: both scoring variants factor through the same core formula, the
later variant with accuracy term `0.5 / same_file_declaration_count` (same
file) or `1 / declaration_count`, the superseded variant with
`0.5 / same_file_definition_count + 0.5 / definition_file_count` (same file)
or `1 / definition_count`: for inputs agreeing on all shared fields the
scores are identical whenever `is_same_file` is false, and for same-file
inputs the two formulas differ exactly in the accuracy term. -/
theorem C5_variant_relation (same nearby breadcrumb : Bool)
    (ref_count sfc dc dfc rld dld rank : Nat) (j1 j2 j3 j4 w1 w2 w3 w4 : ℚ) :
    let a : EditPredictionContext.ScoreInputs :=
      { is_same_file := same, is_referenced_nearby := nearby
        is_referenced_in_breadcrumb := breadcrumb, reference_count := ref_count
        same_file_declaration_count := sfc, declaration_count := dc
        reference_line_distance := rld, declaration_line_distance := dld
        declaration_line_distance_rank := rank
        containing_range_vs_item_jaccard := j1
        containing_range_vs_signature_jaccard := j2
        adjacent_vs_item_jaccard := j3, adjacent_vs_signature_jaccard := j4
        containing_range_vs_item_weighted_overlap := w1
        containing_range_vs_signature_weighted_overlap := w2
        adjacent_vs_item_weighted_overlap := w3
        adjacent_vs_signature_weighted_overlap := w4 }
    let b : ScoredDeclaration.ScoreInputs :=
      { is_same_file := same, is_referenced_nearby := nearby
        is_referenced_in_breadcrumb := breadcrumb, reference_count := ref_count
        same_file_definition_count := sfc, definition_count := dc
        definition_file_count := dfc
        reference_line_distance := rld, definition_line_distance := dld
        definition_line_distance_rank := rank
        containing_range_vs_item_jaccard := j1
        containing_range_vs_signature_jaccard := j2
        adjacent_vs_item_jaccard := j3, adjacent_vs_signature_jaccard := j4
        containing_range_vs_item_weighted_overlap := w1
        containing_range_vs_signature_weighted_overlap := w2
        adjacent_vs_item_weighted_overlap := w3
        adjacent_vs_signature_weighted_overlap := w4 }
    ((a.score.signature, a.score.declaration)
        = score_with_accuracy
            (if same then (0.5 : ℚ) / (sfc : ℚ) else 1 / (dc : ℚ))
            nearby rld w2 w1)
    ∧ ((b.score.signature, b.score.definition)
        = score_with_accuracy
            (if same then (0.5 : ℚ) / (sfc : ℚ) + (0.5 : ℚ) / (dfc : ℚ)
             else 1 / (dc : ℚ))
            nearby rld w2 w1)
    ∧ (same = false →
        a.score.signature = b.score.signature
        ∧ a.score.declaration = b.score.definition) := by
  intro a b
  exact ⟨rfl, rfl, fun h => by subst h; exact ⟨rfl, rfl⟩⟩

/-- Concrete record for the C5 witness (cross-file input, later variant). -/
def aC5 : EditPredictionContext.ScoreInputs :=
  { is_same_file := false, is_referenced_nearby := true
    is_referenced_in_breadcrumb := false, reference_count := 1
    same_file_declaration_count := 1, declaration_count := 2
    reference_line_distance := 3, declaration_line_distance := 0
    declaration_line_distance_rank := 0
    containing_range_vs_item_jaccard := 0
    containing_range_vs_signature_jaccard := 0
    adjacent_vs_item_jaccard := 0, adjacent_vs_signature_jaccard := 0
    containing_range_vs_item_weighted_overlap := 1
    containing_range_vs_signature_weighted_overlap := 1
    adjacent_vs_item_weighted_overlap := 0
    adjacent_vs_signature_weighted_overlap := 0 }

/-- Concrete record for the C5 witness (superseded variant, same shared
fields, `definition_file_count = 1`). -/
def bC5 : ScoredDeclaration.ScoreInputs :=
  { is_same_file := false, is_referenced_nearby := true
    is_referenced_in_breadcrumb := false, reference_count := 1
    same_file_definition_count := 1, definition_count := 2
    definition_file_count := 1
    reference_line_distance := 3, definition_line_distance := 0
    definition_line_distance_rank := 0
    containing_range_vs_item_jaccard := 0
    containing_range_vs_signature_jaccard := 0
    adjacent_vs_item_jaccard := 0, adjacent_vs_signature_jaccard := 0
    containing_range_vs_item_weighted_overlap := 1
    containing_range_vs_signature_weighted_overlap := 1
    adjacent_vs_item_weighted_overlap := 0
    adjacent_vs_signature_weighted_overlap := 0 }

/-- Witness for C5 at a concrete cross-file input. -/
theorem C5_variant_relation_witness :
    aC5.score.signature = bC5.score.signature
    ∧ aC5.score.declaration = bC5.score.definition :=
  (C5_variant_relation false true false 1 1 2 1 3 0 0 0 0 0 0 1 1 0 0).2.2 rfl
